import Mathlib

/-!
Verification development for the ISA-JSON → BioStudies transformation service
(`repository-services/isajson-bioimage`): a shallow embedding of the data
models and operations of `models.py` and `main.py`, followed by theorems
about the documented behaviour.
-/

/-! ## Target models (BioStudies JSON), from `models.py` -/

/-- Embeds `BioAttribute` (models.py): a name with an optional value. -/
structure BioAttribute where
  name : String
  value : Option String := none
deriving DecidableEq

/-- Embeds `BioFile` (models.py): `size` defaults to absent and `type`
defaults to the string "file". -/
structure BioFile where
  path : String
  size : Option Int := none
  type : String := "file"
  attributes : List BioAttribute := []
deriving DecidableEq

/-- Embeds the recursive `BioSection` (models.py): a type tag, optional
accession number, attributes, child sections and files. -/
inductive BioSection where
  | mk (type : String) (accNo : Option String) (attributes : List BioAttribute)
      (subsections : List BioSection) (files : List BioFile)

/-- The `type` field of a `BioSection`. -/
def BioSection.type : BioSection → String
  | .mk t _ _ _ _ => t

/-- The `accNo` field of a `BioSection`. -/
def BioSection.accNo : BioSection → Option String
  | .mk _ a _ _ _ => a

/-- The `attributes` field of a `BioSection`. -/
def BioSection.attributes : BioSection → List BioAttribute
  | .mk _ _ attrs _ _ => attrs

/-- The `subsections` field of a `BioSection`. -/
def BioSection.subsections : BioSection → List BioSection
  | .mk _ _ _ subs _ => subs

/-- The `files` field of a `BioSection`. -/
def BioSection.files : BioSection → List BioFile
  | .mk _ _ _ _ fs => fs

/-- Embeds `BioStudiesSubmission` (models.py): an accession number, root
attributes, and exactly one root section (the field is a single `BioSection`,
so a submission structurally has exactly one root section). -/
structure BioStudiesSubmission where
  accNo : String
  attributes : List BioAttribute := []
  «section» : BioSection

/-! ## Source models (ISA-JSON), from `models.py` -/

/-- Embeds `IsaComment` (models.py). -/
structure IsaComment where
  name : String
  value : Option String := none
deriving DecidableEq

/-- Embeds `IsaOntology` (models.py). -/
structure IsaOntology where
  annotationValue : String
  termSource : Option String := none
deriving DecidableEq

/-- Embeds `IsaPerson` (models.py). -/
structure IsaPerson where
  firstName : String
  lastName : String
  midInitials : Option String := none
  email : Option String := none
  affiliation : Option String := none
  roles : List IsaOntology := []
deriving DecidableEq

/-- Embeds `IsaDataFile` (models.py). -/
structure IsaDataFile where
  filename : String
  label : Option String := none
  type : Option String := none
  comments : List IsaComment := []
deriving DecidableEq

/-- Embeds `IsaAssay` (models.py). -/
structure IsaAssay where
  filename : String
  measurementType : Option IsaOntology := none
  technologyType : Option IsaOntology := none
  dataFiles : List IsaDataFile := []
deriving DecidableEq

/-- Embeds `IsaSource` (models.py). The Python field
`characteristics: List[Dict[str, Any]]` holds arbitrary JSON objects that the
transformation never reads; each dictionary is embedded as a list of
string-keyed entries with string values. -/
structure IsaSource where
  name : String
  characteristics : List (List (String × String)) := []
deriving DecidableEq

/-- Embeds `IsaSample` (models.py). -/
structure IsaSample where
  name : String
  derivesFrom : List String := []
deriving DecidableEq

/-- Embeds `IsaMaterials` (models.py). -/
structure IsaMaterials where
  sources : List IsaSource := []
  samples : List IsaSample := []
deriving DecidableEq

/-- Embeds `IsaStudy` (models.py). -/
structure IsaStudy where
  identifier : String
  title : String
  description : Option String := none
  submissionDate : Option String := none
  publicReleaseDate : Option String := none
  filename : String
  contacts : List IsaPerson := []
  materials : Option IsaMaterials := none
  assays : List IsaAssay := []
deriving DecidableEq

/-- Embeds `IsaInvestigation` (models.py), the data part; the method
`to_biostudies` is embedded separately below. -/
structure IsaInvestigation where
  identifier : String
  title : String
  description : Option String := none
  submissionDate : Option String := none
  publicReleaseDate : Option String := none
  contacts : List IsaPerson := []
  studies : List IsaStudy := []
deriving DecidableEq

/-! ## The transformation `IsaInvestigation.to_biostudies` (models.py) -/

/-- Python truthiness of an `Optional[str]`: `None` and the empty string are
falsy, every other string is truthy. Used by the list comprehensions
`[a for a in attrs if a.value]` and the `if f.type:` guard in `models.py`. -/
def truthy : Option String → Bool
  | none => false
  | some s => s != ""

/-- Holds when a `BioAttribute` survives the source's empty-value filter
`if a.value` (the attribute's value is neither absent nor empty). -/
def attrOk (a : BioAttribute) : Bool :=
  truthy a.value

/-- Embeds the list comprehension `[a for a in attrs if a.value]` used in
`to_biostudies` for root, author and study attributes. -/
def filterAttrs (attrs : List BioAttribute) : List BioAttribute :=
  attrs.filter attrOk

/-- Embeds step 2 of `to_biostudies` (models.py lines 131-145): one
`Author` section per investigation-level contact, with the empty-valued
attributes filtered out. -/
def authorSection (contact : IsaPerson) : BioSection :=
  let author_attrs : List BioAttribute :=
    [ { name := "Name", value := some (contact.firstName ++ " " ++ contact.lastName) },
      { name := "Email", value := contact.email },
      { name := "Organization", value := contact.affiliation },
      { name := "Role",
        value := match contact.roles with
          | r :: _ => some r.annotationValue
          | [] => none } ]
  BioSection.mk "Author" none (filterAttrs author_attrs) [] []

/-- Embeds step 4 of `to_biostudies` (models.py lines 163-174): one
`Biosample` section per sample; no empty-value filtering is applied here in
the source. -/
def sampleSection (sample : IsaSample) : BioSection :=
  let sample_attrs : List BioAttribute :=
    [ { name := "Sample Name", value := some sample.name } ]
  let sample_attrs :=
    match sample.derivesFrom with
    | d :: _ => sample_attrs ++ [ { name := "Derives From", value := some d } ]
    | [] => sample_attrs
  BioSection.mk "Biosample" (some sample.name) sample_attrs [] []

/-- Embeds step 5 of `to_biostudies` (models.py lines 180-185): a data file
becomes a `BioFile` whose first attribute is always `Description` carrying
the (possibly absent) label — no empty-value filtering here in the source —
followed by `Type` only when the source type is truthy. `size` and `type`
keep the `BioFile` defaults (`None` and "file"). -/
def dataFileToBioFile (f : IsaDataFile) : BioFile :=
  let file_attrs : List BioAttribute := [ { name := "Description", value := f.label } ]
  let file_attrs :=
    if truthy f.type then file_attrs ++ [ { name := "Type", value := f.type } ]
    else file_attrs
  { path := f.filename, attributes := file_attrs }

/-- The `Biosample` subsections of the selected study (models.py lines
161-174): one per sample when `materials` is present, none otherwise. -/
def studySubsections (study : IsaStudy) : List BioSection :=
  match study.materials with
  | some m => m.samples.map sampleSection
  | none => []

/-- The files of the selected study (models.py lines 178-185): data files of
all assays flattened in assay order then data-file order. -/
def studyFiles (study : IsaStudy) : List BioFile :=
  study.assays.flatMap fun a => a.dataFiles.map dataFileToBioFile

/-- The four candidate root attributes of step 1 (models.py lines 122-127),
before filtering. -/
def rootAttrs (inv : IsaInvestigation) : List BioAttribute :=
  [ { name := "Title", value := some inv.title },
    { name := "Description", value := inv.description },
    { name := "SubmissionDate", value := inv.submissionDate },
    { name := "PublicReleaseDate", value := inv.publicReleaseDate } ]

/-- The three candidate study attributes of step 3 (models.py lines
154-158), before filtering. -/
def studyAttrs (study : IsaStudy) : List BioAttribute :=
  [ { name := "Title", value := some study.title },
    { name := "Description", value := study.description },
    { name := "Study Identifier", value := some study.identifier } ]

/-- The submission built by `to_biostudies` once a first study exists
(models.py lines 154-206): the main "Study" section carries the filtered
study attributes, the Biosample subsections followed by the Author sections
(the `main_section.subsections.extend(root_subsections)` call), and the
flattened files; the submission carries the investigation identifier and the
filtered root attributes. -/
def mkSubmission (inv : IsaInvestigation) (study : IsaStudy) : BioStudiesSubmission :=
  { accNo := inv.identifier,
    attributes := filterAttrs (rootAttrs inv),
    «section» := BioSection.mk "Study" (some study.identifier)
      (filterAttrs (studyAttrs study))
      (studySubsections study ++ inv.contacts.map authorSection)
      (studyFiles study) }

/-- Embeds `IsaInvestigation.to_biostudies` (models.py lines 115-206).
An empty study list raises `ValueError("ISA JSON must contain at least one
study.")`, embedded as `Except.error`; otherwise the first study is selected
(`self.studies[0]`) and the submission of `mkSubmission` is returned. -/
def to_biostudies (inv : IsaInvestigation) : Except String BioStudiesSubmission :=
  match inv.studies with
  | [] => Except.error "ISA JSON must contain at least one study."
  | study :: _ => Except.ok (mkSubmission inv study)

/-! ## The accession proxy `get_data_by_accession` (main.py) -/

/-- Embeds the `BIOSTUDIES_API_URL` configuration constant (main.py). -/
def BIOSTUDIES_API_URL : String :=
  "https://ftp.ebi.ac.uk/biostudies/fire/"

/-- Whether the first list occurs as a contiguous sublist of the second. -/
def listInfixTest [BEq α] : List α → List α → Bool
  | needle, [] => needle.isEmpty
  | needle, h :: t => needle.isPrefixOf (h :: t) || listInfixTest needle t

/-- Embeds the Python substring test `needle in haystack` on strings. -/
def pyIn (needle haystack : String) : Bool :=
  listInfixTest needle.toList haystack.toList

/-- Embeds Python `s.strip(chars)`: removes from both ends of `s` every
leading and trailing character that occurs in `chars` (character-set
stripping, not literal prefix removal). -/
def pyStrip (chars s : String) : String :=
  let cs := chars.toList
  let trimmed := ((s.toList.dropWhile (fun c => cs.contains c)).reverse.dropWhile
    (fun c => cs.contains c)).reverse
  String.mk trimmed

/-- The possible outcomes of the single outbound `client.get` call in
`get_data_by_accession` (main.py): a success whose body parses as JSON, a
non-2xx status (which `response.raise_for_status()` turns into an
`httpx.HTTPStatusError`), or any other failure (network error, body that
fails to parse, ...). The handler is parameterised over this environment
behaviour. -/
inductive UpstreamResult where
  | success (body : String)
  | statusError (status : Nat) (message : String)
  | failure (message : String)

/-- The observable result of the proxy handler: a relayed body, or an
`HTTPException` with a status code and detail string. -/
inductive ProxyResult where
  | ok (body : String)
  | httpError (status : Nat) (detail : String)
deriving DecidableEq

/-- One run of the proxy handler: which URL was fetched from the external
source, if any, and the handler's result. -/
structure ProxyTrace where
  fetched : Option String
  result : ProxyResult

/-- Embeds `get_data_by_accession` (main.py lines 14-42), including its
exception handling. When the code lacks the "S-BIAD" marker the source
raises `HTTPException(status_code=400, detail="Invalid Accession Code")`
inside its own `try` block; `fastapi.HTTPException` is a subclass of
`Exception` (via `starlette.exceptions.HTTPException`), so the handler's
blanket `except Exception as e` catches it and re-raises
`HTTPException(500, f"Internal Server Error: \x7bstr(e)\x7d")`, where
`str(e)` of a starlette `HTTPException` renders as `"400: Invalid Accession
Code"`; no external call is made. Otherwise the suffix is derived with
`accession_code.strip("S-BIAD")`, the four-segment URL is fetched, a
non-2xx upstream status is passed through (`except httpx.HTTPStatusError`),
and any other failure is wrapped as a 500. -/
def get_data_by_accession (accession_code : String)
    (upstream : String → UpstreamResult) : ProxyTrace :=
  if pyIn "S-BIAD" accession_code then
    let accession_folder := "S-BIAD"
    let accession_number := pyStrip "S-BIAD" accession_code
    let url := BIOSTUDIES_API_URL ++ accession_folder ++ "/" ++ accession_number ++ "/"
      ++ accession_code ++ "/" ++ accession_code ++ ".json"
    { fetched := some url,
      result :=
        match upstream url with
        | .success body => .ok body
        | .statusError status msg => .httpError status msg
        | .failure msg => .httpError 500 ("Internal Server Error: " ++ msg) }
  else
    { fetched := none,
      result := .httpError 500 "Internal Server Error: 400: Invalid Accession Code" }

/-! ## Concrete documents used by the theorems -/

/-- The contact of the specification's worked example. -/
def exampleContact : IsaPerson :=
  { firstName := "John", lastName := "Doe",
    email := some "john@example.com", affiliation := some "Lab A" }

/-- The study of the specification's worked example (the required study and
assay filenames are instantiated with the mock document's values; they do
not influence the transformation). -/
def exampleStudy : IsaStudy :=
  { identifier := "STU-101", title := "Study Title", filename := "s_study.txt",
    materials := some { samples := [ { name := "Sample-1", derivesFrom := ["Source-1"] } ] },
    assays := [ { filename := "a_assay.txt",
                  dataFiles := [ { filename := "raw_data.fastq", label := some "Raw Reads",
                                   type := some "fastq" } ] } ] }

/-- The worked example investigation of the specification (§8). -/
def exampleInv : IsaInvestigation :=
  { identifier := "INV-101", title := "Investigation Title",
    contacts := [exampleContact], studies := [exampleStudy] }

/-- The submission the worked example must produce. -/
def exampleSub : BioStudiesSubmission :=
  { accNo := "INV-101",
    attributes := [ { name := "Title", value := some "Investigation Title" } ],
    «section» := BioSection.mk "Study" (some "STU-101")
      [ { name := "Title", value := some "Study Title" },
        { name := "Study Identifier", value := some "STU-101" } ]
      [ BioSection.mk "Biosample" (some "Sample-1")
          [ { name := "Sample Name", value := some "Sample-1" },
            { name := "Derives From", value := some "Source-1" } ] [] [],
        BioSection.mk "Author" none
          [ { name := "Name", value := some "John Doe" },
            { name := "Email", value := some "john@example.com" },
            { name := "Organization", value := some "Lab A" } ] [] [] ]
      [ { path := "raw_data.fastq", size := none, type := "file",
          attributes := [ { name := "Description", value := some "Raw Reads" },
                          { name := "Type", value := some "fastq" } ] } ] }

/-- An investigation whose only data file has no label and whose only sample
has an empty name: accepted by the transformation, yet the emitted document
carries a `Description` attribute with an absent value (on the file) and a
`Sample Name` attribute with an empty value (on the Biosample section). -/
def noLabelInv : IsaInvestigation :=
  { identifier := "INV-NL", title := "T",
    studies := [ { identifier := "STU-NL", title := "ST", filename := "s.txt",
                   materials := some { samples := [ { name := "" } ] },
                   assays := [ { filename := "a.txt",
                                 dataFiles := [ { filename := "data.bin" } ] } ] } ] }

/-- The submission `to_biostudies` produces for `noLabelInv`. -/
def noLabelSub : BioStudiesSubmission :=
  { accNo := "INV-NL",
    attributes := [ { name := "Title", value := some "T" } ],
    «section» := BioSection.mk "Study" (some "STU-NL")
      [ { name := "Title", value := some "ST" },
        { name := "Study Identifier", value := some "STU-NL" } ]
      [ BioSection.mk "Biosample" (some "")
          [ { name := "Sample Name", value := some "" } ] [] [] ]
      [ { path := "data.bin", size := none, type := "file",
          attributes := [ { name := "Description", value := none } ] } ] }

/-- The file emitted for the unlabelled data file of `noLabelInv`. -/
def noLabelFile : BioFile :=
  { path := "data.bin", size := none, type := "file",
    attributes := [ { name := "Description", value := none } ] }

/-! ## Claim theorems -/

/-- C2: the specification's worked example. The investigation with
identifier "INV-101", contact John Doe, study "STU-101" with sample
"Sample-1" deriving from "Source-1" and data file "raw_data.fastq" labelled
"Raw Reads" of type "fastq" transforms to the submission with accession
"INV-101" whose root "Study" section (accNo "STU-101") contains exactly the
one Biosample child, the one File and the one Author child with the claimed
attributes. The equality is against the fully explicit submission, which
entails each of the listed facts. -/
theorem C2_worked_example : to_biostudies exampleInv = Except.ok exampleSub := by
  rfl

/-- C3: an investigation with an empty study list makes the transformation
fail with the validation error, producing no submission (the result is
`Except.error`, never a partial `Except.ok`), whatever the other fields
hold. -/
theorem C3_empty_studies_error (identifier title : String)
    (description submissionDate publicReleaseDate : Option String)
    (contacts : List IsaPerson) :
    to_biostudies
      { identifier := identifier, title := title, description := description,
        submissionDate := submissionDate, publicReleaseDate := publicReleaseDate,
        contacts := contacts, studies := [] } =
      Except.error "ISA JSON must contain at least one study." := by
  rfl

/-- C4: the output depends only on the first study — transforming an
investigation whose study list is `s :: rest` gives exactly the submission
obtained after truncating the study list to `[s]`, so no field of any later
study reaches the output. -/
theorem C4_first_study_only (inv : IsaInvestigation) (s : IsaStudy)
    (rest : List IsaStudy) :
    to_biostudies { inv with studies := s :: rest } =
      to_biostudies { inv with studies := [s] } := by
  rfl

/-- C7: for every accepted investigation, the root section is the single
"Study" section (the submission's `section` field is one section, so there
are no further root sections), and its children are exactly the Biosample
sections followed by the Author sections built from the investigation-level
contacts in contact order. -/
theorem C7_authors_under_study (inv : IsaInvestigation) (s : IsaStudy)
    (rest : List IsaStudy) :
    (to_biostudies { inv with studies := s :: rest }).map
        (fun sub => (BioSection.type sub.«section», BioSection.subsections sub.«section»)) =
      Except.ok ("Study", studySubsections s ++ List.map authorSection inv.contacts) := by
  rfl

/-- C8: the transformation is deterministic — structurally identical inputs
give structurally identical outputs; the embedding is a pure function of the
investigation, with no other state. -/
theorem C8_deterministic (inv₁ inv₂ : IsaInvestigation) (h : inv₁ = inv₂) :
    to_biostudies inv₁ = to_biostudies inv₂ := by
  rw [h]

/-- Witness for C8 at the worked example investigation. -/
theorem C8_deterministic_witness :
    to_biostudies exampleInv = to_biostudies exampleInv :=
  C8_deterministic exampleInv exampleInv rfl

/-- Replacing a study's contacts by the empty list; used to state that
study-level contacts never reach the output. -/
def eraseStudyContacts (s : IsaStudy) : IsaStudy :=
  { s with contacts := [] }

/-- Erasing every study's contacts does not change the transformation's
result: the selected study is read only through its `title`, `description`,
`identifier`, `materials` and `assays` fields. -/
theorem to_biostudies_eraseStudyContacts (inv : IsaInvestigation) :
    to_biostudies { inv with studies := inv.studies.map eraseStudyContacts } =
      to_biostudies inv := by
  obtain ⟨i, t, d, sd, prd, cs, studies⟩ := inv
  cases studies with
  | nil => rfl
  | cons s rest => rfl

/-- C10: study-level contacts never influence the output — two
investigations that agree after erasing every study's contacts list (that
is, they differ only in those lists) transform to structurally identical
submissions. -/
theorem C10_study_contacts_irrelevant (inv₁ inv₂ : IsaInvestigation)
    (h : { inv₁ with studies := inv₁.studies.map eraseStudyContacts } =
         { inv₂ with studies := inv₂.studies.map eraseStudyContacts }) :
    to_biostudies inv₁ = to_biostudies inv₂ := by
  rw [← to_biostudies_eraseStudyContacts inv₁, h,
    to_biostudies_eraseStudyContacts inv₂]

/-- An investigation whose study carries a study-level contact. -/
def studyContactInv : IsaInvestigation :=
  { identifier := "INV-C", title := "T",
    studies := [ { identifier := "STU-C", title := "ST", filename := "s.txt",
                   contacts := [ { firstName := "Jane", lastName := "Roe" } ] } ] }

/-- The same investigation with the study-level contact removed. -/
def studyContactInvErased : IsaInvestigation :=
  { identifier := "INV-C", title := "T",
    studies := [ { identifier := "STU-C", title := "ST", filename := "s.txt" } ] }

/-- Witness for C10: the two concrete investigations differing only in the
study-level contacts transform identically. -/
theorem C10_study_contacts_irrelevant_witness :
    to_biostudies studyContactInv = to_biostudies studyContactInvErased :=
  C10_study_contacts_irrelevant studyContactInv studyContactInvErased (by decide)

/-- C5: for every accession code containing the marker "S-BIAD", the proxy
fetches exactly `base ++ "S-BIAD" ++ "/" ++ suffix ++ "/" ++ code ++ "/" ++
code ++ ".json"`, where the suffix is the code with the prefix characters
stripped from both ends (Python `str.strip` character-set semantics, as the
source's `accession_code.strip("S-BIAD")`). -/
theorem C5_fetch_path (code : String) (upstream : String → UpstreamResult)
    (h : pyIn "S-BIAD" code = true) :
    (get_data_by_accession code upstream).fetched =
      some (BIOSTUDIES_API_URL ++ "S-BIAD" ++ "/" ++ pyStrip "S-BIAD" code ++ "/"
        ++ code ++ "/" ++ code ++ ".json") := by
  simp [get_data_by_accession, h]

/-- Witness for C5 at the concrete code "S-BIAD123". -/
theorem C5_fetch_path_witness :
    (get_data_by_accession "S-BIAD123" (fun _ => UpstreamResult.success "")).fetched =
      some (BIOSTUDIES_API_URL ++ "S-BIAD" ++ "/" ++ pyStrip "S-BIAD" "S-BIAD123" ++ "/"
        ++ "S-BIAD123" ++ "/" ++ "S-BIAD123" ++ ".json") :=
  C5_fetch_path "S-BIAD123" (fun _ => UpstreamResult.success "") (by decide)

/-- C6 (code bug): for a code without the "S-BIAD" marker — here "ABC" —
the proxy performs no external fetch, as the claim says, but the error it
surfaces carries status 500, not 400: the `HTTPException(400, "Invalid
Accession Code")` is raised inside the handler's own `try` block, whose
blanket `except Exception` catches it (fastapi's `HTTPException` subclasses
`Exception`) and re-raises it as a 500 wrapping the original message. -/
theorem C6_invalid_code_wrapped_to_500 (upstream : String → UpstreamResult) :
    (get_data_by_accession "ABC" upstream).fetched = none ∧
      (get_data_by_accession "ABC" upstream).result =
        ProxyResult.httpError 500 "Internal Server Error: 400: Invalid Accession Code" := by
  constructor <;> rfl

/-- Attributes surviving the empty-value filter keep satisfying it. -/
theorem filterAttrs_all_ok (l : List BioAttribute) :
    (filterAttrs l).all attrOk = true := by
  rw [List.all_eq_true]
  intro a ha
  exact List.of_mem_filter ha

/-- C1 fails on the code: `noLabelInv` is accepted by the transformation,
yet its emitted submission carries an absent-valued `Description` attribute
on its file and an empty-valued `Sample Name` attribute on its Biosample
subsection — the empty-value filter is not applied to file attributes or
Biosample attributes. -/
theorem C1_counterexample :
    ((to_biostudies noLabelInv).map fun sub =>
        (BioSection.files sub.«section»).all fun f => f.attributes.all attrOk) =
      Except.ok false ∧
    ((to_biostudies noLabelInv).map fun sub =>
        (BioSection.subsections sub.«section»).all fun s =>
          (BioSection.attributes s).all attrOk) =
      Except.ok false := by
  constructor <;> rfl

/-- C1 as amended: for every accepted investigation, no empty- or
absent-valued attribute appears in the submission's root attributes, in the
Study section's attributes, or in any Author subsection's attributes; the
filter is not applied to Biosample or File attributes (see
`C1_counterexample`). -/
theorem C1_filtering_amended (inv : IsaInvestigation) (sub : BioStudiesSubmission)
    (h : to_biostudies inv = Except.ok sub) :
    sub.attributes.all attrOk = true ∧
      (BioSection.attributes sub.«section»).all attrOk = true ∧
      ∀ s ∈ BioSection.subsections sub.«section»,
        BioSection.type s = "Author" → (BioSection.attributes s).all attrOk = true := by
  cases hs : inv.studies with
  | nil => simp [to_biostudies, hs] at h
  | cons st rest =>
    simp only [to_biostudies, hs, Except.ok.injEq] at h
    subst h
    refine ⟨filterAttrs_all_ok _, filterAttrs_all_ok _, ?_⟩
    intro s hsmem htype
    rcases List.mem_append.mp hsmem with hmem | hmem
    · exfalso
      unfold studySubsections at hmem
      cases hm : st.materials with
      | none => rw [hm] at hmem; simp at hmem
      | some m =>
        rw [hm] at hmem
        obtain ⟨x, -, rfl⟩ := List.mem_map.mp hmem
        simp [sampleSection, BioSection.type] at htype
    · obtain ⟨c, -, rfl⟩ := List.mem_map.mp hmem
      exact filterAttrs_all_ok _

/-- Witness for the amended C1 at the worked example. -/
theorem C1_filtering_amended_witness :
    exampleSub.attributes.all attrOk = true ∧
      (BioSection.attributes exampleSub.«section»).all attrOk = true :=
  ⟨(C1_filtering_amended exampleInv exampleSub (by rfl)).1,
   (C1_filtering_amended exampleInv exampleSub (by rfl)).2.1⟩

/-- C9: every file of an accepted submission comes from a source data file,
carries as its first attribute a `Description` whose value is the data
file's (possibly absent) label, has type "file" and no size. -/
theorem C9_file_shape (inv : IsaInvestigation) (sub : BioStudiesSubmission)
    (h : to_biostudies inv = Except.ok sub) (bf : BioFile)
    (hbf : bf ∈ BioSection.files sub.«section») :
    ∃ df : IsaDataFile, bf = dataFileToBioFile df ∧
      bf.attributes.head? = some { name := "Description", value := df.label } ∧
      bf.type = "file" ∧ bf.size = none := by
  cases hs : inv.studies with
  | nil => simp [to_biostudies, hs] at h
  | cons st rest =>
    simp only [to_biostudies, hs, Except.ok.injEq] at h
    subst h
    simp only [mkSubmission, BioSection.files] at hbf
    unfold studyFiles at hbf
    rw [List.mem_flatMap] at hbf
    obtain ⟨a, -, hbf⟩ := hbf
    obtain ⟨df, -, rfl⟩ := List.mem_map.mp hbf
    refine ⟨df, rfl, ?_, rfl, rfl⟩
    show (dataFileToBioFile df).attributes.head? = _
    unfold dataFileToBioFile
    cases htype : truthy df.type <;> simp [htype]

/-- Witness for C9 at the unlabelled data file of `noLabelInv`: the emitted
file's `Description` attribute has an absent value. -/
theorem C9_file_shape_witness :
    ∃ df : IsaDataFile, noLabelFile = dataFileToBioFile df ∧
      noLabelFile.attributes.head? = some { name := "Description", value := df.label } ∧
      noLabelFile.type = "file" ∧ noLabelFile.size = none :=
  C9_file_shape noLabelInv noLabelSub rfl noLabelFile (by decide)
